import Mathlib

/-!
Verification of the Creator-Athena microservice data-access layer.

The repository is a Node/Express service over PostgreSQL.  We embed the
relevant JavaScript functions shallowly: JavaScript runtime values become
`JSValue`, the `agents` / `user_voices` tables become Lean lists of row
records, each parameterized SQL statement becomes an explicit pure function
on those lists, and thrown `Error`s become `Except String` results carrying
the error message.  Database behaviour that the service relies on
(text-to-integer casts of query parameters, `ON CONFLICT DO NOTHING`,
row filtering by `WHERE` clauses) is modelled explicitly; the outcome of
constraint checks that only the live database can decide is passed in as a
parameter where a claim needs it.
-/

set_option autoImplicit false

/-- A JavaScript runtime value as it appears in a JSON-parsed request body:
    `undefined`, `null`, a string, a (finite) number, or a boolean.
    JSON cannot encode `NaN`/`Infinity`, so numbers are modelled as `Rat`. -/
inductive JSValue where
  | undef
  | null
  | str (s : String)
  | num (q : Rat)
  | bool (b : Bool)
  deriving DecidableEq, Repr

namespace JSValue

/-- JavaScript truthiness of a `JSValue`: `undefined`, `null`, `""`, `0` and
    `false` are falsy, everything else is truthy. -/
def truthy : JSValue → Bool
  | undef  => false
  | null   => false
  | str s  => !s.isEmpty
  | num q  => q != 0
  | bool b => b

/-- `typeof v === "string"`. -/
def isStr : JSValue → Bool
  | str _ => true
  | _     => false

/-- JavaScript destructuring default: applies exactly when the value is
    `undefined`. -/
def withDefault (v d : JSValue) : JSValue :=
  if v == undef then d else v

end JSValue

/-! ## The UUID pattern

All three id-sniffing sites use the same regular expression
`/^[0-9a-f]{8}-[0-9a-f]{4}-[0-9a-f]{4}-[0-9a-f]{4}-[0-9a-f]{12}$/i`.
We embed it as a scanner that consumes exactly the groups the anchored
pattern describes. -/

/-- A hexadecimal digit, case-insensitively (the regex carries the `i` flag). -/
def isHexDigitCI (c : Char) : Bool :=
  (Char.ofNat 48 ≤ c && c ≤ Char.ofNat 57) ||
  (Char.ofNat 97 ≤ c && c ≤ Char.ofNat 102) ||
  (Char.ofNat 65 ≤ c && c ≤ Char.ofNat 70)

/-- Consume exactly `n` hexadecimal digits, returning the remaining input. -/
def hexRun : Nat → List Char → Option (List Char)
  | 0, cs => some cs
  | _ + 1, [] => none
  | n + 1, c :: cs => if isHexDigitCI c then hexRun n cs else none

/-- Consume a literal dash. -/
def dashRun : List Char → Option (List Char)
  | c :: cs => if c = Char.ofNat 45 then some cs else none
  | [] => none

/-- The test `/^[0-9a-f]{8}-[0-9a-f]{4}-[0-9a-f]{4}-[0-9a-f]{4}-[0-9a-f]{12}$/i.test s`:
    five dash-separated hexadecimal groups of lengths 8-4-4-4-12, anchored at
    both ends. -/
def isUUID (s : String) : Bool :=
  (Option.bind (hexRun 8 s.data) fun r =>
   Option.bind (dashRun r) fun r =>
   Option.bind (hexRun 4 r) fun r =>
   Option.bind (dashRun r) fun r =>
   Option.bind (hexRun 4 r) fun r =>
   Option.bind (dashRun r) fun r =>
   Option.bind (hexRun 4 r) fun r =>
   Option.bind (dashRun r) fun r =>
   Option.bind (hexRun 12 r) fun r =>
   if r.isEmpty then some () else none).isSome

/-- The canonical UUID pattern exactly as the specification words it: five
    hexadecimal groups of lengths 8-4-4-4-12 joined by single dashes,
    case-insensitive, spanning the whole string.  This is the spec-side
    reading, to be compared with the code-side scanner `isUUID`. -/
def uuidShape (s : String) : Prop :=
  ∃ g1 g2 g3 g4 g5 : List Char,
    s.data = g1 ++ Char.ofNat 45 :: g2 ++ Char.ofNat 45 :: g3 ++
      Char.ofNat 45 :: g4 ++ Char.ofNat 45 :: g5 ∧
    g1.length = 8 ∧ g2.length = 4 ∧ g3.length = 4 ∧ g4.length = 4 ∧
    g5.length = 12 ∧ (g1 ++ g2 ++ g3 ++ g4 ++ g5).all isHexDigitCI = true

/-! ## PostgreSQL text-to-integer cast

The non-UUID branches compare a text route parameter against the integer
`id` column; PostgreSQL casts the parameter with the `int4` input function:
optional surrounding whitespace, an optional sign, then decimal digits
(nothing else).  A parameter the cast rejects makes the statement fail. -/

/-- Characters PostgreSQL strips around an integer literal. -/
def isPgSpace (c : Char) : Bool :=
  c = Char.ofNat 32 || c = Char.ofNat 9 || c = Char.ofNat 10 || c = Char.ofNat 13

/-- Decimal digit list to a natural number, most significant first. -/
def digitsToNat (cs : List Char) : Nat :=
  cs.foldl (fun acc c => acc * 10 + (c.toNat - 48)) 0

/-- The PostgreSQL `text → int4` cast, `none` when the cast errors. -/
def parsePgInt (s : String) : Option Int :=
  let cs := (s.data.dropWhile isPgSpace).reverse.dropWhile isPgSpace |>.reverse
  let (sign, cs) :=
    match cs with
    | c :: rest =>
        if c = Char.ofNat 45 then ((-1 : Int), rest)
        else if c = Char.ofNat 43 then ((1 : Int), rest)
        else ((1 : Int), c :: rest)
    | [] => ((1 : Int), [])
  if cs.isEmpty || !cs.all Char.isDigit then none
  else some (sign * (digitsToNat cs : Int))

/-! ## JavaScript parseInt

The route handlers call `parseInt(creator_id)` with no radix: leading
whitespace is skipped, an optional sign is read, a `0x`/`0X` prefix switches
to base 16, then the longest run of digits of the radix is converted; `NaN`
(here `none`) when that run is empty. -/

/-- Digit test for `parseInt`'s radix. -/
def isRadixDigit (base : Nat) (c : Char) : Bool :=
  if base = 16 then isHexDigitCI c else c.isDigit

/-- Digit value of a (possibly hexadecimal) digit character. -/
def digitVal (c : Char) : Nat :=
  if c.isDigit then c.toNat - 48
  else if Char.ofNat 97 ≤ c && c ≤ Char.ofNat 102 then c.toNat - 87
  else c.toNat - 55

/-- `parseInt(s)` of JavaScript, `none` standing for `NaN`. -/
def parseIntJS (s : String) : Option Int :=
  let cs := s.data.dropWhile isPgSpace
  let (sign, cs) :=
    match cs with
    | c :: rest =>
        if c = Char.ofNat 45 then ((-1 : Int), rest)
        else if c = Char.ofNat 43 then ((1 : Int), rest)
        else ((1 : Int), c :: rest)
    | [] => ((1 : Int), [])
  let (base, cs) :=
    match cs with
    | c0 :: c1 :: rest =>
        if c0 = Char.ofNat 48 && (c1 = Char.ofNat 120 || c1 = Char.ofNat 88) then
          (16, rest)
        else (10, c0 :: c1 :: rest)
    | other => (10, other)
  let ds := cs.takeWhile (isRadixDigit base)
  if ds.isEmpty then none
  else some (sign * (ds.foldl (fun acc c => acc * base + digitVal c) 0 : Int))

/-- `sub` is an initial segment of `cs`. -/
def leadsWith : List Char → List Char → Bool
  | [], _ => true
  | _ :: _, [] => false
  | a :: as, b :: bs => a == b && leadsWith as bs

/-- `sub` occurs contiguously somewhere in `cs`. -/
def occursIn (sub : List Char) : List Char → Bool
  | [] => leadsWith sub []
  | c :: cs => leadsWith sub (c :: cs) || occursIn sub cs

/-- `s.includes(sub)` of JavaScript: `sub` occurs contiguously in `s`. -/
def containsJS (s sub : String) : Bool :=
  occursIn sub.data s.data

/-- A database error as the `pg` driver surfaces it: an optional SQLSTATE
    `code` and a message. -/
structure PgError where
  code : Option String
  message : String
  deriving DecidableEq, Repr

/-! ## Agent repository, instructor variant (`agentService.js`, first module)

This variant stores agents under `instructor_id`, exposes both a surrogate
integer `id` and an external UUID `agent_id`, and sniffs the id string with
the UUID regex to pick the lookup column. -/

namespace AgentA

/-- A row of the `agents` table as this variant selects it.  The mutable
    columns hold `JSValue`s because the service writes whatever the patch
    carried; `id`, `agent_id` and `instructor_id` are the typed key columns. -/
structure AgentRow where
  id : Int
  agent_id : String
  instructor_id : Int
  name : JSValue
  description : JSValue
  avatar_url : JSValue
  model_type : JSValue
  temperature : JSValue
  visibility : JSValue
  created_at : Nat
  updated_at : Nat
  deriving DecidableEq, Repr

/-- A row of the `users` table, as far as the `LEFT JOIN` selects it. -/
structure UserRow where
  id : Int
  user_id : String
  name : String
  email : String
  deriving DecidableEq, Repr

/-- The error message every not-found / wrong-owner path throws. -/
def notFoundMsg : String := "Agent not found or access denied"

/-- The message PostgreSQL raises when the `text → int4` cast of a non-UUID,
    non-numeric id parameter fails; it propagates out of the service untouched. -/
def pgCastErrorMsg (s : String) : String :=
  "invalid input syntax for type integer: " ++ s

/-- Whether a row is hit by the id part of the `WHERE` clause: the
    `agent_id` column when the literal id string matches the UUID pattern,
    the cast integer `id` column otherwise. -/
def rowHasKey (key : String) (r : AgentRow) : Bool :=
  if isUUID key then r.agent_id == key
  else
    match parsePgInt key with
    | some n => r.id == n
    | none => false

/-- `getAgentById(agentId, instructorId)`: select the row matching the
    sniffed id column and the owner, left-joined with the owner's user row;
    throws `"Agent not found or access denied"` when no row matches. -/
def getAgentById (db : List AgentRow) (users : List UserRow) (agentId : String)
    (instructorId : Int) : Except String (AgentRow × Option UserRow) :=
  if isUUID agentId then
    match db.find? (fun r => r.agent_id == agentId && r.instructor_id == instructorId) with
    | none => .error notFoundMsg
    | some r => .ok (r, users.find? (fun u => u.id == r.instructor_id))
  else
    match parsePgInt agentId with
    | none => .error (pgCastErrorMsg agentId)
    | some n =>
        match db.find? (fun r => r.id == n && r.instructor_id == instructorId) with
        | none => .error notFoundMsg
        | some r => .ok (r, users.find? (fun u => u.id == r.instructor_id))

/-- The fixed allow-list of mutable columns of `updateAgent`. -/
def allowedFields : List String :=
  ["name", "description", "avatar_url", "model_type", "temperature", "visibility"]

/-- One `SET column = value` assignment of the dynamic `UPDATE`; only the
    six allow-listed column names can ever reach it. -/
def setCol (r : AgentRow) (k : String) (v : JSValue) : AgentRow :=
  if k == "name" then { r with name := v }
  else if k == "description" then { r with description := v }
  else if k == "avatar_url" then { r with avatar_url := v }
  else if k == "model_type" then { r with model_type := v }
  else if k == "temperature" then { r with temperature := v }
  else if k == "visibility" then { r with visibility := v }
  else r

/-- Apply the whole `SET` list in order. -/
def applyFields (r : AgentRow) (fields : List (String × JSValue)) : AgentRow :=
  fields.foldl (fun r kv => setCol r kv.1 kv.2) r

/-- Body of `updateAgent` after the id column has been sniffed: ownership
    probe, allow-list filtering of `Object.entries(updates)`, then the
    dynamic `UPDATE` on every row the `WHERE` clause hits. -/
def updateSelected (db : List AgentRow) (sel : AgentRow → Bool)
    (updates : List (String × JSValue)) : Except String AgentRow × List AgentRow :=
  match db.find? sel with
  | none => (.error notFoundMsg, db)
  | some r0 =>
      let updateFields := updates.filter (fun kv => allowedFields.contains kv.1)
      if updateFields.isEmpty then (.error "No valid fields to update", db)
      else
        (.ok (applyFields r0 updateFields),
         db.map fun r => if sel r then applyFields r updateFields else r)

/-- `updateAgent(agentId, instructorId, updates)`. -/
def updateAgent (db : List AgentRow) (agentId : String) (instructorId : Int)
    (updates : List (String × JSValue)) : Except String AgentRow × List AgentRow :=
  if isUUID agentId then
    updateSelected db (fun r => r.agent_id == agentId && r.instructor_id == instructorId) updates
  else
    match parsePgInt agentId with
    | none => (.error (pgCastErrorMsg agentId), db)
    | some n =>
        updateSelected db (fun r => r.id == n && r.instructor_id == instructorId) updates

/-- Body of `deleteAgent` after id sniffing: `DELETE ... RETURNING id, agent_id`,
    throwing when zero rows were deleted. -/
def deleteSelected (db : List AgentRow) (sel : AgentRow → Bool) :
    Except String (Int × String) × List AgentRow :=
  match db.find? sel with
  | none => (.error notFoundMsg, db)
  | some r0 => (.ok (r0.id, r0.agent_id), db.filter fun r => !sel r)

/-- `deleteAgent(agentId, instructorId)`. -/
def deleteAgent (db : List AgentRow) (agentId : String) (instructorId : Int) :
    Except String (Int × String) × List AgentRow :=
  if isUUID agentId then
    deleteSelected db (fun r => r.agent_id == agentId && r.instructor_id == instructorId)
  else
    match parsePgInt agentId with
    | none => (.error (pgCastErrorMsg agentId), db)
    | some n =>
        deleteSelected db (fun r => r.id == n && r.instructor_id == instructorId)

/-- The inbound payload of `createAgent`, destructured fields only
    (`JSValue.undef` when the key is absent). -/
structure AgentData where
  instructor_id : JSValue := .undef
  name : JSValue := .undef
  description : JSValue := .undef
  avatar_url : JSValue := .undef
  model_type : JSValue := .undef
  temperature : JSValue := .undef
  visibility : JSValue := .undef
  deriving DecidableEq, Repr

/-- `validVisibility` of this variant. -/
def validVisibility : List String := ["private", "campus", "public"]

/-- `validVisibility.includes(visibility)` (`===` comparison). -/
def visIncludes (v : JSValue) : Bool :=
  validVisibility.any fun s => v == .str s

/-- The parameter vector of the `INSERT` statement of `createAgent`. -/
structure InsertValues where
  instructor_id : JSValue
  name : JSValue
  description : JSValue
  avatar_url : JSValue
  model_type : JSValue
  temperature : JSValue
  visibility : JSValue
  deriving DecidableEq, Repr

/-- The pure part of `createAgent` up to issuing the `INSERT`: destructuring
    with defaults, the required-field check, the visibility enum check.
    `.ok v` means the function goes on to execute the `INSERT` with
    parameters `v`; `.error m` means it throws before touching the table. -/
def createAgent (d : AgentData) : Except String InsertValues :=
  let description := JSValue.withDefault d.description .null
  let avatar_url := JSValue.withDefault d.avatar_url .null
  let model_type := JSValue.withDefault d.model_type (.str "gpt-5")
  let temperature := JSValue.withDefault d.temperature (.num (0.7 : Rat))
  let visibility := JSValue.withDefault d.visibility (.str "private")
  if !d.instructor_id.truthy || !d.name.truthy then
    .error "instructor_id and name are required"
  else if !visIncludes visibility then
    .error "Invalid visibility. Must be one of: private, campus, public"
  else
    .ok { instructor_id := d.instructor_id, name := d.name, description, avatar_url,
          model_type, temperature, visibility }

/-- The `catch` block of `createAgent`: translate foreign-key (23503) and
    check-constraint (23514) violations, rethrow everything else. -/
def translateCreateError (e : PgError) : String :=
  if e.code == some "23503" then "Invalid instructor_id - user does not exist"
  else if e.code == some "23514" then "Invalid visibility. Must be: private, campus, or public"
  else e.message

/-- The `catch` block of `updateAgent`: translate check-constraint
    violations only. -/
def translateUpdateError (e : PgError) : String :=
  if e.code == some "23514" then "Invalid visibility. Must be: private, campus, or public"
  else e.message

end AgentA

/-! ## Agent repository, creator variant (`agentService.js`, second module)

This variant stores agents under `creator_id`, registers each new agent
with an external training API before inserting, and swallows any failure of
that outbound call. -/

namespace AgentB

/-- Outcome of the outbound `axiosWithRetry.post` registration call:
    either the call succeeded and `response.data?.data?.agent_id ||
    response.data?.agent_id` extracted to the given optional uuid, or the
    call threw with the given error message. -/
inductive TrainingOutcome where
  | ok (uuid : Option String)
  | failed (message : String)
  deriving DecidableEq, Repr

/-- The correlation uuid as the `try/catch` leaves it: `trainingApiUuid`
    starts out `null` and is only assigned on a successful call. -/
def trainingUuid : TrainingOutcome → Option String
  | .ok u => u
  | .failed _ => none

/-- The inbound payload of this variant's `createAgent`, destructured
    fields only (`JSValue.undef` when the key is absent). -/
structure AgentData where
  creator_id : JSValue := .undef
  name : JSValue := .undef
  description : JSValue := .undef
  personality_name : JSValue := .undef
  tone : JSValue := .undef
  trait_array : JSValue := .undef
  system_prompt : JSValue := .undef
  model : JSValue := .undef
  temperature : JSValue := .undef
  max_tokens : JSValue := .undef
  is_active : JSValue := .undef
  role : JSValue := .undef
  price_amount : JSValue := .undef
  price_currency : JSValue := .undef
  deriving DecidableEq, Repr

/-- `validRoles` of this variant. -/
def validRoles : List String := ["free", "paid"]

/-- `validRoles.includes(role)` (`===` comparison). -/
def roleIncludes (v : JSValue) : Bool :=
  validRoles.any fun s => v == .str s

/-- The parameter vector of this variant's `INSERT` statement.  The payload
    sent to the training API is elided: no claim observes it, only the
    `training_api_uuid` that comes back. -/
structure InsertValues where
  creator_id : JSValue
  name : JSValue
  description : JSValue
  personality_name : JSValue
  tone : JSValue
  trait_array : JSValue
  system_prompt : JSValue
  model : JSValue
  temperature : JSValue
  max_tokens : JSValue
  is_active : JSValue
  role : JSValue
  price_amount : JSValue
  price_currency : JSValue
  training_api_uuid : Option String
  deriving DecidableEq, Repr

/-- The pure part of this variant's `createAgent` up to issuing the
    `INSERT`: destructuring with defaults, required-field check, role enum
    check, then the guarded training-API call whose failure is logged and
    swallowed.  `.ok v` means the `INSERT` runs with parameters `v`;
    `.error m` means the function throws before touching the table. -/
def createAgent (d : AgentData) (training : TrainingOutcome) :
    Except String InsertValues :=
  let description := JSValue.withDefault d.description .null
  let personality_name := JSValue.withDefault d.personality_name .null
  let tone := JSValue.withDefault d.tone .null
  let trait_array := JSValue.withDefault d.trait_array .null
  let system_prompt := JSValue.withDefault d.system_prompt .null
  let model := JSValue.withDefault d.model (.str "gpt-4")
  let temperature := JSValue.withDefault d.temperature (.num (0.7 : Rat))
  let max_tokens := JSValue.withDefault d.max_tokens (.num 2000)
  let is_active := JSValue.withDefault d.is_active (.bool true)
  let role := JSValue.withDefault d.role (.str "free")
  let price_amount := JSValue.withDefault d.price_amount .null
  let price_currency := JSValue.withDefault d.price_currency (.str "USD")
  if !d.creator_id.truthy || !d.name.truthy then
    .error "creator_id and name are required"
  else if !roleIncludes role then
    .error "Invalid role. Must be one of: free, paid"
  else
    .ok { creator_id := d.creator_id, name := d.name, description, personality_name,
          tone, trait_array, system_prompt, model, temperature, max_tokens,
          is_active, role, price_amount, price_currency,
          training_api_uuid := trainingUuid training }

/-- The `catch` block of this variant's `createAgent`: only foreign-key
    violations are translated; check-constraint violations rethrow raw. -/
def translateCreateError (e : PgError) : String :=
  if e.code == some "23503" then "Invalid creator_id - user does not exist"
  else e.message

/-- Whether the registration call succeeded and actually produced a uuid. -/
def yieldedUuid : TrainingOutcome → Bool
  | .ok (some _) => true
  | _ => false

end AgentB

/-! ## Agent repository, campus variant (`part_000`)

This variant (creator_id / agent_type / domain / campus / region / courses /
personality) performs no input validation at all before its `INSERT`. -/

namespace AgentC

/-- The inbound payload of this variant's `createAgent`. -/
structure AgentData where
  creator_id : JSValue := .undef
  agent_type : JSValue := .undef
  domain : JSValue := .undef
  campus : JSValue := .undef
  region : JSValue := .undef
  courses : JSValue := .undef
  personality : JSValue := .undef
  deriving DecidableEq, Repr

/-- The parameter vector of this variant's `INSERT`.  `courses` and
    `personality` are passed through `JSON.stringify`; the serialization is
    kept as the value itself since no claim observes the encoded text. -/
structure InsertValues where
  creator_id : JSValue
  agent_type : JSValue
  domain : JSValue
  campus : JSValue
  region : JSValue
  courses_serialized : JSValue
  personality_serialized : JSValue
  deriving DecidableEq, Repr

/-- The fixed set the database-level check constraint on `agent_type`
    enforces, per this variant's own translated error message. -/
def validAgentTypes : List String := ["instructor", "it_support", "administration"]

/-- The pure part of this variant's `createAgent` up to issuing the
    `INSERT`: only destructuring with defaults — there is no required-field
    check and no enum check, so it always reaches the `INSERT`. -/
def createAgent (d : AgentData) : Except String InsertValues :=
  let region := JSValue.withDefault d.region (.str "Lebanon")
  let courses := JSValue.withDefault d.courses .null
  let personality := JSValue.withDefault d.personality .null
  .ok { creator_id := d.creator_id, agent_type := d.agent_type, domain := d.domain,
        campus := d.campus, region, courses_serialized := courses,
        personality_serialized := personality }

/-- The `catch` block of this variant's `createAgent` and `updateAgent`:
    check-constraint violations become the agent_type message, everything
    else rethrows. -/
def translateCreateError (e : PgError) : String :=
  if e.code == some "23514" then
    "Invalid agent_type. Must be: instructor, it_support, or administration"
  else e.message

end AgentC

/-! ## Voice repository (`voiceService.js`) -/

namespace Voice

/-- A row of the `user_voices` table.  The table carries a unique
    constraint on the (user_id, voice_id) pair, which is what
    `ON CONFLICT (user_id, voice_id)` targets. -/
structure VoiceRow where
  id : Nat
  user_id : String
  voice_id : String
  deriving DecidableEq, Repr

/-- A serial id strictly larger than every id in the table. -/
def nextId (db : List VoiceRow) : Nat :=
  (db.map VoiceRow.id).foldl max 0 + 1

/-- The `{success, message, data}` envelope the service returns. -/
structure VoiceResult where
  success : Bool
  message : String
  data : Option VoiceRow
  deriving DecidableEq, Repr

/-- `cloneBuiltInVoice(userId, voiceId)`: `INSERT ... ON CONFLICT
    (user_id, voice_id) DO NOTHING RETURNING *`; when zero rows come back
    (the pair already exists) the existing row is fetched and returned with
    the distinct message, otherwise the fresh row is returned. -/
def cloneBuiltInVoice (db : List VoiceRow) (userId voiceId : String) :
    VoiceResult × List VoiceRow :=
  match db.find? (fun r => r.user_id == userId && r.voice_id == voiceId) with
  | some r =>
      ({ success := true, message := "Voice already saved for this user", data := some r }, db)
  | none =>
      let newRow : VoiceRow := { id := nextId db, user_id := userId, voice_id := voiceId }
      ({ success := true, message := "Voice saved successfully", data := some newRow },
       db ++ [newRow])

/-- Number of rows the table holds for a (user, voice) pair. -/
def pairCount (db : List VoiceRow) (userId voiceId : String) : Nat :=
  (db.filter fun r => r.user_id == userId && r.voice_id == voiceId).length

end Voice

/-! ## Route layer (`creatorRoutes.js`) -/

namespace Routes

/-- The payload fields `validateAgentInput` inspects. -/
structure Payload where
  creator_id : JSValue := .undef
  name : JSValue := .undef
  visibility : JSValue := .undef
  temperature : JSValue := .undef
  model_type : JSValue := .undef
  deriving DecidableEq, Repr

/-- `validVisibility` of the route-level validator. -/
def validVisibility : List String := ["private", "campus", "public"]

/-- `validVisibility.includes(data.visibility)` (`===` comparison). -/
def visIncludes (v : JSValue) : Bool :=
  validVisibility.any fun s => v == .str s

/-- `typeof t === "number" && !(t < 0) && !(t > 2)` — the negation of the
    condition under which the temperature violation is pushed. -/
def tempOk : JSValue → Bool
  | .num q => decide ((0 : Rat) ≤ q) && decide (q ≤ (2 : Rat))
  | _ => false

/-- `validateAgentInput(data, isUpdate)`: collect human-readable violation
    strings in push order; creation mode additionally requires `creator_id`
    and `name`.  Each enum/typed check fires only under the source's own
    guard (`if (data.visibility)`, `data.temperature !== undefined`,
    `if (data.model_type)`). -/
def validateAgentInput (data : Payload) (isUpdate : Bool) : List String :=
  (if isUpdate then []
   else
     (if data.creator_id.truthy then [] else ["creator_id is required"]) ++
     (if data.name.truthy then [] else ["name is required"])) ++
  (if data.visibility.truthy then
     (if visIncludes data.visibility then []
      else ["visibility must be one of: private, campus, public"])
   else []) ++
  (if data.temperature == .undef then []
   else if tempOk data.temperature then []
   else ["temperature must be a number between 0 and 2"]) ++
  (if data.model_type.truthy then
     (if data.model_type.isStr then [] else ["model_type must be a string"])
   else [])

/-- The creator_id gate every agent route repeats: reject a missing (falsy)
    `creator_id` with 400, run it through `parseInt`, reject `NaN` with 400,
    otherwise proceed with the parsed integer as the owner id.  The query
    parameter is a string (`none` when absent from the URL). -/
def creatorIdGate (creator_id : Option String) : Except (Nat × String) Int :=
  match creator_id with
  | none => .error (400, "creator_id query parameter is required")
  | some s =>
      if s.isEmpty then .error (400, "creator_id query parameter is required")
      else
        match parseIntJS s with
        | none => .error (400, "creator_id must be a valid number")
        | some n => .ok n

/-- The HTTP response an agent route's `catch` block produces. -/
structure ErrorResponse where
  status : Nat
  success : Bool
  message : String
  deriving DecidableEq, Repr

/-- The shared `catch` mapping of the GET-by-id / PUT / DELETE handlers:
    404 when the error message contains `"not found"`, 500 otherwise, with
    `success: false` and `error.message || fallback` as the body message. -/
def catchResponse (fallback : String) (msg : String) : ErrorResponse :=
  { status := if containsJS msg "not found" then 404 else 500,
    success := false,
    message := if msg.isEmpty then fallback else msg }

/-- `catch` block of `GET /agents/:id`. -/
def getAgentCatch (msg : String) : ErrorResponse :=
  catchResponse "Failed to fetch agent" msg

/-- `catch` block of `PUT /agents/:id`. -/
def updateAgentCatch (msg : String) : ErrorResponse :=
  catchResponse "Failed to update agent" msg

/-- `catch` block of `DELETE /agents/:id`. -/
def deleteAgentCatch (msg : String) : ErrorResponse :=
  catchResponse "Failed to delete agent" msg

end Routes

/-! ## Concrete fixtures used by witness theorems -/

namespace Fixture

/-- A sample stored agent row: surrogate id 5, a UUID external id, owner 7. -/
def row : AgentA.AgentRow :=
  { id := 5, agent_id := "123e4567-e89b-12d3-a456-426614174000",
    instructor_id := 7, name := .str "Bot", description := .null,
    avatar_url := .null, model_type := .str "gpt-5",
    temperature := .num 1, visibility := .str "private",
    created_at := 0, updated_at := 0 }

/-- A one-row agents table holding `row`. -/
def db : List AgentA.AgentRow := [row]

end Fixture

/-! ## Theorems -/

/-- If every row hit by the id part of the `WHERE` clause has a different
    owner, the UUID-branch selector matches nothing. -/
theorem AgentA.find_uuid_sel_none (db : List AgentA.AgentRow) (key : String) (owner : Int)
    (h : isUUID key = true)
    (hno : ∀ r ∈ db, AgentA.rowHasKey key r = true → r.instructor_id ≠ owner) :
    db.find? (fun r => r.agent_id == key && r.instructor_id == owner) = none := by
  rw [List.find?_eq_none]
  intro r hr hpred
  simp only [Bool.and_eq_true, beq_iff_eq] at hpred
  exact hno r hr (by simp [AgentA.rowHasKey, h, hpred.1]) hpred.2

/-- If every row hit by the id part of the `WHERE` clause has a different
    owner, the integer-branch selector matches nothing. -/
theorem AgentA.find_int_sel_none (db : List AgentA.AgentRow) (key : String) (owner n : Int)
    (h : isUUID key = false) (hn : parsePgInt key = some n)
    (hno : ∀ r ∈ db, AgentA.rowHasKey key r = true → r.instructor_id ≠ owner) :
    db.find? (fun r => r.id == n && r.instructor_id == owner) = none := by
  rw [List.find?_eq_none]
  intro r hr hpred
  simp only [Bool.and_eq_true, beq_iff_eq] at hpred
  exact hno r hr (by simp [AgentA.rowHasKey, h, hn, hpred.1]) hpred.2

/-- C1: for every well-formed agent id (UUID-shaped or integer-castable) and
    owner id, when no row matches the id together with the owner — whether the
    id hits rows all owned by someone else, or no row at all — `getAgentById`,
    `updateAgent` and `deleteAgent` all fail with the one constant error
    `"Agent not found or access denied"` and leave the table untouched, and
    the route layer maps that message to 404.  The outputs are the same fixed
    constants in the wrong-owner case as in the missing-row case, so no output
    distinguishes the two. -/
theorem agentA_ops_conflate_missing_and_foreign
    (db : List AgentA.AgentRow) (users : List AgentA.UserRow)
    (key : String) (owner : Int) (patch : List (String × JSValue))
    (hkey : isUUID key = true ∨ (parsePgInt key).isSome = true)
    (hno : ∀ r ∈ db, AgentA.rowHasKey key r = true → r.instructor_id ≠ owner) :
    AgentA.getAgentById db users key owner = .error AgentA.notFoundMsg ∧
    AgentA.updateAgent db key owner patch = (.error AgentA.notFoundMsg, db) ∧
    AgentA.deleteAgent db key owner = (.error AgentA.notFoundMsg, db) ∧
    (Routes.getAgentCatch AgentA.notFoundMsg).status = 404 ∧
    (Routes.updateAgentCatch AgentA.notFoundMsg).status = 404 ∧
    (Routes.deleteAgentCatch AgentA.notFoundMsg).status = 404 := by
  have h404g : (Routes.getAgentCatch AgentA.notFoundMsg).status = 404 := by decide
  have h404u : (Routes.updateAgentCatch AgentA.notFoundMsg).status = 404 := by decide
  have h404d : (Routes.deleteAgentCatch AgentA.notFoundMsg).status = 404 := by decide
  cases h : isUUID key with
  | true =>
      have hnone := AgentA.find_uuid_sel_none db key owner h hno
      exact ⟨by simp [AgentA.getAgentById, h, hnone],
             by simp [AgentA.updateAgent, AgentA.updateSelected, h, hnone],
             by simp [AgentA.deleteAgent, AgentA.deleteSelected, h, hnone],
             h404g, h404u, h404d⟩
  | false =>
      have hi : (parsePgInt key).isSome = true := by
        rcases hkey with hu | hi
        · rw [h] at hu; exact absurd hu (by simp)
        · exact hi
      obtain ⟨n, hn⟩ := Option.isSome_iff_exists.mp hi
      have hnone := AgentA.find_int_sel_none db key owner n h hn hno
      exact ⟨by simp [AgentA.getAgentById, h, hn, hnone],
             by simp [AgentA.updateAgent, AgentA.updateSelected, h, hn, hnone],
             by simp [AgentA.deleteAgent, AgentA.deleteSelected, h, hn, hnone],
             h404g, h404u, h404d⟩

/-- Witness for `agentA_ops_conflate_missing_and_foreign`: a concrete table
    holding agent id 5 owned by user 7, queried for id 5 by user 8. -/
theorem agentA_ops_conflate_witness :
    AgentA.getAgentById Fixture.db [] "5" 8 = .error AgentA.notFoundMsg :=
  (agentA_ops_conflate_missing_and_foreign Fixture.db [] "5" 8 []
    (Or.inr (by decide)) (by decide)).1

/-- C2: for an agent that exists and is owned by the caller, `updateAgent`
    with a patch whose keys all fall outside the allow-list filters every key
    away, throws `"No valid fields to update"`, and returns the table
    unchanged — the dynamic `UPDATE` is never built. -/
theorem agentA_update_all_keys_disallowed
    (db : List AgentA.AgentRow) (key : String) (owner : Int)
    (patch : List (String × JSValue))
    (hex : ∃ r ∈ db, AgentA.rowHasKey key r = true ∧ r.instructor_id = owner)
    (hdis : ∀ kv ∈ patch, kv.1 ∉ AgentA.allowedFields) :
    AgentA.updateAgent db key owner patch = (.error "No valid fields to update", db) := by
  have hfilter : patch.filter (fun kv => AgentA.allowedFields.contains kv.1) = [] := by
    rw [List.filter_eq_nil_iff]
    intro kv hkv
    simpa using hdis kv hkv
  obtain ⟨r, hr, hhas, hown⟩ := hex
  cases h : isUUID key with
  | true =>
      have hpred : (r.agent_id == key && r.instructor_id == owner) = true := by
        simp only [AgentA.rowHasKey, h, if_true] at hhas
        simp [hhas, hown]
      have hsome : (db.find? fun r => r.agent_id == key && r.instructor_id == owner).isSome := by
        rw [List.find?_isSome]
        exact ⟨r, hr, hpred⟩
      obtain ⟨r0, hr0⟩ := Option.isSome_iff_exists.mp hsome
      simp only [AgentA.updateAgent, AgentA.updateSelected, h, if_true, hr0, hfilter,
        List.isEmpty_nil, if_pos]
  | false =>
      simp only [AgentA.rowHasKey, h] at hhas
      cases hn : parsePgInt key with
      | none => rw [hn] at hhas; simp at hhas
      | some n =>
          rw [hn] at hhas
          simp only [Bool.false_eq_true, if_false, beq_iff_eq] at hhas
          have hpred : (r.id == n && r.instructor_id == owner) = true := by
            simp [hhas, hown]
          have hsome : (db.find? fun r => r.id == n && r.instructor_id == owner).isSome := by
            rw [List.find?_isSome]
            exact ⟨r, hr, hpred⟩
          obtain ⟨r0, hr0⟩ := Option.isSome_iff_exists.mp hsome
          simp only [AgentA.updateAgent, AgentA.updateSelected, h, Bool.false_eq_true,
            if_false, hn, hr0, hfilter, List.isEmpty_nil, if_pos]

/-- C4 counterexample: in the campus variant (`part_000`), `createAgent`
    called with an absent owner id and an `agent_type` outside
    {instructor, it_support, administration} does not fail with a
    `ValidationError` — it proceeds straight to the `INSERT` with those very
    values, so the claim's "in every service variant" is false. -/
theorem agentC_create_skips_validation :
    AgentC.createAgent { creator_id := .undef, agent_type := .str "hacker" }
      = .ok { creator_id := .undef, agent_type := .str "hacker", domain := .undef,
              campus := .undef, region := .str "Lebanon",
              courses_serialized := .null, personality_serialized := .null } ∧
    JSValue.truthy .undef = false ∧
    "hacker" ∉ AgentC.validAgentTypes := by
  refine ⟨rfl, rfl, ?_⟩
  decide

/-- C4 (amended): the instructor and creator variants fail before persisting
    anything — with the required-fields message when owner id or name is
    absent, and with their enum message when the effective visibility
    (variant A) or role (variant B) lies outside its fixed set; the campus
    variant performs no pre-insert validation at all, and storage-layer check
    violations are translated (to the visibility message in variant A and the
    agent_type message in variant C). -/
theorem createAgent_validation_amended :
    (∀ d : AgentA.AgentData,
      d.instructor_id.truthy = false ∨ d.name.truthy = false →
      AgentA.createAgent d = .error "instructor_id and name are required") ∧
    (∀ d : AgentA.AgentData,
      d.instructor_id.truthy = true → d.name.truthy = true →
      AgentA.visIncludes (JSValue.withDefault d.visibility (.str "private")) = false →
      AgentA.createAgent d
        = .error "Invalid visibility. Must be one of: private, campus, public") ∧
    (∀ (d : AgentB.AgentData) (t : AgentB.TrainingOutcome),
      d.creator_id.truthy = false ∨ d.name.truthy = false →
      AgentB.createAgent d t = .error "creator_id and name are required") ∧
    (∀ (d : AgentB.AgentData) (t : AgentB.TrainingOutcome),
      d.creator_id.truthy = true → d.name.truthy = true →
      AgentB.roleIncludes (JSValue.withDefault d.role (.str "free")) = false →
      AgentB.createAgent d t = .error "Invalid role. Must be one of: free, paid") ∧
    (∀ d : AgentC.AgentData, ∃ v, AgentC.createAgent d = .ok v) ∧
    (∀ m : String,
      AgentA.translateCreateError { code := some "23514", message := m }
        = "Invalid visibility. Must be: private, campus, or public") ∧
    (∀ m : String,
      AgentC.translateCreateError { code := some "23514", message := m }
        = "Invalid agent_type. Must be: instructor, it_support, or administration") := by
  refine ⟨?_, ?_, ?_, ?_, ?_, ?_, ?_⟩
  · intro d h
    rcases h with h | h <;> simp [AgentA.createAgent, h]
  · intro d h1 h2 h3
    simp [AgentA.createAgent, h1, h2, h3]
  · intro d t h
    rcases h with h | h <;> simp [AgentB.createAgent, h]
  · intro d t h1 h2 h3
    simp [AgentB.createAgent, h1, h2, h3]
  · intro d
    exact ⟨_, rfl⟩
  · intro m
    simp [AgentA.translateCreateError]
  · intro m
    simp [AgentC.translateCreateError]

/-- Witness for `createAgent_validation_amended`: a payload with no owner id
    is rejected by the instructor variant before any insert. -/
theorem createAgent_validation_amended_witness :
    AgentA.createAgent { instructor_id := .undef, name := .str "Bot" }
      = .error "instructor_id and name are required" :=
  createAgent_validation_amended.1
    { instructor_id := .undef, name := .str "Bot" } (Or.inl (by decide))

/-- C8: in the creator variant, for every payload passing validation, the
    outcome of the outbound training-API registration never makes
    `createAgent` fail: the `INSERT` still runs and succeeds, the stored
    `training_api_uuid` is the extracted uuid, it is `null` exactly when the
    registration did not yield a uuid, and a failed call is indistinguishable
    from a successful call that returned no uuid. -/
theorem agentB_training_failure_swallowed
    (d : AgentB.AgentData) (t : AgentB.TrainingOutcome)
    (hc : d.creator_id.truthy = true) (hn : d.name.truthy = true)
    (hr : AgentB.roleIncludes (JSValue.withDefault d.role (.str "free")) = true) :
    (∃ v : AgentB.InsertValues, AgentB.createAgent d t = .ok v) ∧
    (∀ v : AgentB.InsertValues, AgentB.createAgent d t = .ok v →
      v.training_api_uuid = AgentB.trainingUuid t ∧
      (v.training_api_uuid = none ↔ AgentB.yieldedUuid t = false)) ∧
    (∀ m : String, AgentB.createAgent d (.failed m) = AgentB.createAgent d (.ok none)) := by
  refine ⟨?_, ?_, ?_⟩
  · simp only [AgentB.createAgent, hc, hn, hr, Bool.not_true, Bool.false_or,
      Bool.or_false, if_false, Bool.false_eq_true, ite_false]
    exact ⟨_, rfl⟩
  · intro v hv
    simp only [AgentB.createAgent, hc, hn, hr, Bool.not_true, Bool.false_or,
      Bool.or_false, if_false, Bool.false_eq_true, ite_false, Except.ok.injEq] at hv
    subst hv
    refine ⟨rfl, ?_⟩
    cases t with
    | ok u => cases u <;> simp [AgentB.trainingUuid, AgentB.yieldedUuid]
    | failed m => simp [AgentB.trainingUuid, AgentB.yieldedUuid]
  · intro m
    simp [AgentB.createAgent, AgentB.trainingUuid]

/-- Witness for `agentB_training_failure_swallowed`: a valid payload whose
    registration call failed with a connection error. -/
theorem agentB_training_failure_swallowed_witness :
    AgentB.createAgent { creator_id := .str "7", name := .str "Bot" }
      (.failed "connect ECONNREFUSED")
    = AgentB.createAgent { creator_id := .str "7", name := .str "Bot" } (.ok none) :=
  (agentB_training_failure_swallowed { creator_id := .str "7", name := .str "Bot" }
    (.ok none) (by decide) (by decide) (by decide)).2.2 "connect ECONNREFUSED"

/-- C6 counterexample: the empty string is a present (defined) visibility
    value outside {private, campus, public}, yet `validateAgentInput` reports
    no violation at all for a payload carrying it, so "rejects a present
    visibility outside the set" is false as stated. -/
theorem validate_present_empty_visibility_passes :
    Routes.validateAgentInput { visibility := .str "" } true = [] ∧
    ({ visibility := .str "" } : Routes.Payload).visibility ≠ .undef ∧
    Routes.visIncludes (.str "") = false := by
  decide

set_option maxHeartbeats 1600000 in
/-- C6 (amended): `validateAgentInput` is a pure function returning the list
    of violation strings, and each violation appears exactly under the code's
    own guard: the two mandatory-key messages exactly in creation mode with a
    falsy key, the visibility message exactly for a truthy visibility outside
    {private, campus, public}, the temperature message exactly for a defined
    temperature that is not a number in [0, 2], and the model_type message
    exactly for a truthy non-string model_type (falsy visibility and
    model_type values are skipped, not rejected). -/
theorem validateAgentInput_characterization (d : Routes.Payload) (u : Bool) :
    ("creator_id is required" ∈ Routes.validateAgentInput d u
      ↔ u = false ∧ d.creator_id.truthy = false) ∧
    ("name is required" ∈ Routes.validateAgentInput d u
      ↔ u = false ∧ d.name.truthy = false) ∧
    ("visibility must be one of: private, campus, public" ∈ Routes.validateAgentInput d u
      ↔ d.visibility.truthy = true ∧ Routes.visIncludes d.visibility = false) ∧
    ("temperature must be a number between 0 and 2" ∈ Routes.validateAgentInput d u
      ↔ d.temperature ≠ .undef ∧ Routes.tempOk d.temperature = false) ∧
    ("model_type must be a string" ∈ Routes.validateAgentInput d u
      ↔ d.model_type.truthy = true ∧ d.model_type.isStr = false) := by
  cases u <;>
    · unfold Routes.validateAgentInput
      split_ifs <;> simp_all

set_option maxHeartbeats 1600000 in
/-- C9: a falsy visibility — the empty string in particular — skips the enum
    check of `validateAgentInput` entirely and reports no visibility
    violation, and the same falsy guard applies to model_type; concretely,
    a payload whose visibility is `""` passes update-mode validation with an
    empty violation list although `""` is outside {private, campus, public}. -/
theorem validate_skips_falsy_enum_fields (d : Routes.Payload) (u : Bool) :
    (d.visibility.truthy = false →
      "visibility must be one of: private, campus, public" ∉ Routes.validateAgentInput d u) ∧
    (d.model_type.truthy = false →
      "model_type must be a string" ∉ Routes.validateAgentInput d u) ∧
    Routes.validateAgentInput { visibility := .str "" } true = [] ∧
    Routes.visIncludes (.str "") = false ∧
    Routes.validateAgentInput { visibility := .str "", model_type := .bool false } true = [] := by
  refine ⟨?_, ?_, by decide, by decide, by decide⟩ <;>
    · intro h
      cases u <;>
        · unfold Routes.validateAgentInput
          split_ifs <;> simp_all

/-- Witness for `validate_skips_falsy_enum_fields`: the empty-string
    visibility payload produces no visibility violation. -/
theorem validate_skips_falsy_enum_fields_witness :
    "visibility must be one of: private, campus, public"
      ∉ Routes.validateAgentInput { visibility := .str "", model_type := .bool false } false :=
  (validate_skips_falsy_enum_fields
    { visibility := .str "", model_type := .bool false } false).1 (by decide)

/-- C7: every repository error reaching the GET-by-id, PUT or DELETE
    handler's `catch` block is mapped to 404 exactly when its message
    contains the substring `"not found"`, and otherwise to a 500 response
    with `success: false` carrying the error's message. -/
theorem route_catch_status_mapping (msg : String) (hne : msg ≠ "") :
    ((Routes.getAgentCatch msg).status = 404 ↔ containsJS msg "not found" = true) ∧
    ((Routes.updateAgentCatch msg).status = 404 ↔ containsJS msg "not found" = true) ∧
    ((Routes.deleteAgentCatch msg).status = 404 ↔ containsJS msg "not found" = true) ∧
    (containsJS msg "not found" = false →
      Routes.getAgentCatch msg = { status := 500, success := false, message := msg } ∧
      Routes.updateAgentCatch msg = { status := 500, success := false, message := msg } ∧
      Routes.deleteAgentCatch msg = { status := 500, success := false, message := msg }) := by
  have hempty : msg.isEmpty = false := by
    rw [Bool.eq_false_iff]
    intro h
    exact hne ((String.isEmpty_iff msg).mp h)
  cases hc : containsJS msg "not found" <;>
    simp [Routes.getAgentCatch, Routes.updateAgentCatch, Routes.deleteAgentCatch,
      Routes.catchResponse, hc, hempty]

/-- Witness for `route_catch_status_mapping`: the conflated ownership error
    is mapped to 404, and an arbitrary other error to 500 with its message. -/
theorem route_catch_status_mapping_witness :
    (Routes.getAgentCatch "Agent not found or access denied").status = 404 ∧
    Routes.getAgentCatch "connection refused"
      = { status := 500, success := false, message := "connection refused" } :=
  ⟨(route_catch_status_mapping "Agent not found or access denied" (by decide)).1.mpr
    (by decide),
   ((route_catch_status_mapping "connection refused" (by decide)).2.2.2 (by decide)).1⟩

/-- C10: the handlers' creator_id gate accepts any string with a parseable
    numeric prefix — `parseInt("12abc")` is 12, not `NaN`, so the request is
    not rejected with 400 "creator_id must be a valid number" but proceeds to
    the repository call with owner id 12 — and rejects with that message
    exactly the non-empty strings `parseInt` maps to `NaN`. -/
theorem creator_id_numeric_gate (s : String) (n : Int) :
    parseIntJS "12abc" = some 12 ∧
    Routes.creatorIdGate (some "12abc") = .ok 12 ∧
    Routes.creatorIdGate (some "abc") = .error (400, "creator_id must be a valid number") ∧
    (Routes.creatorIdGate (some s) = .error (400, "creator_id must be a valid number")
      ↔ s ≠ "" ∧ parseIntJS s = none) ∧
    (Routes.creatorIdGate (some s) = .ok n ↔ s ≠ "" ∧ parseIntJS s = some n) := by
  refine ⟨by rfl, by rfl, by rfl, ?_, ?_⟩ <;>
    · by_cases hs : s = ""
      · subst hs
        have hgate : Routes.creatorIdGate (some "")
            = .error (400, "creator_id query parameter is required") := rfl
        rw [hgate]
        simp
      · have hempty : s.isEmpty = false := by
          rw [Bool.eq_false_iff]
          intro h
          exact hs ((String.isEmpty_iff s).mp h)
        cases hp : parseIntJS s <;>
          simp [Routes.creatorIdGate, hempty, hp, hs]

/-- C3: under the table's uniqueness invariant (at most one row per
    (user, voice) pair), calling `cloneBuiltInVoice` twice in succession
    returns `success: true` both times, the second call carries the distinct
    message `"Voice already saved for this user"`, and afterwards the table
    holds exactly one row for the pair. -/
theorem voice_clone_idempotent
    (db : List Voice.VoiceRow) (u v : String)
    (hinv : Voice.pairCount db u v ≤ 1) :
    (Voice.cloneBuiltInVoice db u v).1.success = true ∧
    (Voice.cloneBuiltInVoice (Voice.cloneBuiltInVoice db u v).2 u v).1.success = true ∧
    (Voice.cloneBuiltInVoice (Voice.cloneBuiltInVoice db u v).2 u v).1.message
      = "Voice already saved for this user" ∧
    Voice.pairCount (Voice.cloneBuiltInVoice (Voice.cloneBuiltInVoice db u v).2 u v).2 u v
      = 1 := by
  cases h : db.find? (fun r => r.user_id == u && r.voice_id == v) with
  | none =>
      have hall := List.find?_eq_none.mp h
      have hfil : db.filter (fun r => r.user_id == u && r.voice_id == v) = [] :=
        List.filter_eq_nil_iff.mpr hall
      have hfind2 :
          (db ++ [({ id := Voice.nextId db, user_id := u, voice_id := v } : Voice.VoiceRow)]).find?
            (fun r => r.user_id == u && r.voice_id == v)
          = some { id := Voice.nextId db, user_id := u, voice_id := v } := by
        rw [List.find?_append, h]
        simp
      refine ⟨?_, ?_, ?_, ?_⟩ <;>
        simp [Voice.cloneBuiltInVoice, h, hfind2, Voice.pairCount, List.filter_append, hfil]
  | some r =>
      have hr : r ∈ db := List.mem_of_find?_eq_some h
      have hpr : (r.user_id == u && r.voice_id == v) = true :=
        List.find?_some (p := fun (s : Voice.VoiceRow) => s.user_id == u && s.voice_id == v) h
      have h1 : 0 < Voice.pairCount db u v :=
        List.length_pos_of_mem (List.mem_filter.mpr ⟨hr, hpr⟩)
      have heq : Voice.pairCount db u v = 1 := Nat.le_antisymm hinv h1
      refine ⟨?_, ?_, ?_, ?_⟩ <;>
        simp [Voice.cloneBuiltInVoice, h, heq]

/-- Witness for `voice_clone_idempotent`: starting from an empty table. -/
theorem voice_clone_idempotent_witness :
    Voice.pairCount
      (Voice.cloneBuiltInVoice (Voice.cloneBuiltInVoice [] "user-1" "voice-9").2
        "user-1" "voice-9").2 "user-1" "voice-9" = 1 :=
  (voice_clone_idempotent [] "user-1" "voice-9" (by decide)).2.2.2

/-- Witness for `agentA_update_all_keys_disallowed`: patching only the owner
    column `instructor_id` on an owned agent changes nothing and fails. -/
theorem agentA_update_all_keys_disallowed_witness :
    AgentA.updateAgent Fixture.db "5" 7 [("instructor_id", .num 99)]
      = (.error "No valid fields to update", Fixture.db) :=
  agentA_update_all_keys_disallowed Fixture.db "5" 7 _
    ⟨Fixture.row, by decide, by decide, by decide⟩ (by decide)

example : isUUID "123e4567-e89b-12d3-a456-42661417400" = false := by decide
example : parsePgInt " 007 " = some 7 := by decide
example : parsePgInt "12abc" = none := by decide
example : parseIntJS "12abc" = some 12 := by decide
example : parseIntJS "abc" = none := by decide
example : parseIntJS "0x1A" = some 26 := by decide
example : containsJS "Agent not found or access denied" "not found" = true := by decide

/-- The hexadecimal scanner consumes exactly a run of `n` hex digits. -/
theorem hexRun_some_iff (n : Nat) (cs rest : List Char) :
    hexRun n cs = some rest ↔
      ∃ g, cs = g ++ rest ∧ g.length = n ∧ g.all isHexDigitCI = true := by
  induction n generalizing cs with
  | zero =>
      simp only [hexRun, Option.some.injEq]
      constructor
      · rintro rfl
        exact ⟨[], rfl, rfl, rfl⟩
      · rintro ⟨g, hcs, hlen, -⟩
        rw [List.length_eq_zero] at hlen
        subst hlen
        simpa using hcs
  | succ n ih =>
      cases cs with
      | nil =>
          simp only [hexRun]
          constructor
          · intro h
            exact absurd h (by simp)
          · rintro ⟨g, hcs, hlen, -⟩
            cases g with
            | nil => simp at hlen
            | cons a g2 => simp at hcs
      | cons c cs =>
          simp only [hexRun]
          by_cases hc : isHexDigitCI c = true
          · rw [if_pos hc, ih]
            constructor
            · rintro ⟨g, rfl, hlen, hall⟩
              exact ⟨c :: g, rfl, by simp [hlen], by simp [hc, hall]⟩
            · rintro ⟨g, hcs, hlen, hall⟩
              cases g with
              | nil => simp at hlen
              | cons a g2 =>
                  simp only [List.cons_append, List.cons.injEq] at hcs
                  obtain ⟨rfl, hcs2⟩ := hcs
                  refine ⟨g2, hcs2, by simpa using hlen, ?_⟩
                  simp only [List.all_cons, Bool.and_eq_true] at hall
                  exact hall.2
          · rw [if_neg hc]
            constructor
            · intro h
              exact absurd h (by simp)
            · rintro ⟨g, hcs, hlen, hall⟩
              cases g with
              | nil => simp at hlen
              | cons a g2 =>
                  simp only [List.cons_append, List.cons.injEq] at hcs
                  obtain ⟨rfl, -⟩ := hcs
                  simp only [List.all_cons, Bool.and_eq_true] at hall
                  exact (hc hall.1).elim

/-- The dash scanner consumes exactly one dash character. -/
theorem dashRun_some_iff (cs rest : List Char) :
    dashRun cs = some rest ↔ cs = Char.ofNat 45 :: rest := by
  cases cs with
  | nil => simp [dashRun]
  | cons c cs2 =>
      by_cases h : c = Char.ofNat 45
      · subst h
        simp [dashRun]
      · simp [dashRun, h]

/-- The code-side regex test recognises exactly the spec-side canonical
    8-4-4-4-12 case-insensitive pattern. -/
theorem isUUID_iff_uuidShape (s : String) : isUUID s = true ↔ uuidShape s := by
  unfold isUUID uuidShape
  rw [Option.isSome_iff_exists]
  constructor
  · rintro ⟨u, h⟩
    simp only [Option.bind_eq_some] at h
    obtain ⟨r1, h1, r2, h2, r3, h3, r4, h4, r5, h5, r6, h6, r7, h7, r8, h8, r9, h9, hif⟩ := h
    rw [hexRun_some_iff] at h1 h3 h5 h7 h9
    rw [dashRun_some_iff] at h2 h4 h6 h8
    obtain ⟨g1, hg1, hl1, ha1⟩ := h1
    obtain ⟨g2, hg2, hl2, ha2⟩ := h3
    obtain ⟨g3, hg3, hl3, ha3⟩ := h5
    obtain ⟨g4, hg4, hl4, ha4⟩ := h7
    obtain ⟨g5, hg5, hl5, ha5⟩ := h9
    have hr9 : r9 = [] := by
      cases r9 with
      | nil => rfl
      | cons a l => simp at hif
    subst hr9
    refine ⟨g1, g2, g3, g4, g5, ?_, hl1, hl2, hl3, hl4, hl5, ?_⟩
    · rw [hg1, h2, hg2, h4, hg3, h6, hg4, h8, hg5, List.append_nil]
      simp [List.append_assoc]
    · simp [List.all_append, ha1, ha2, ha3, ha4, ha5]
  · rintro ⟨g1, g2, g3, g4, g5, hs, hl1, hl2, hl3, hl4, hl5, hall⟩
    simp only [List.all_append, Bool.and_eq_true] at hall
    obtain ⟨⟨⟨⟨ha1, ha2⟩, ha3⟩, ha4⟩, ha5⟩ := hall
    refine ⟨(), ?_⟩
    simp only [Option.bind_eq_some]
    refine ⟨Char.ofNat 45 :: (g2 ++ Char.ofNat 45 :: (g3 ++ Char.ofNat 45 ::
        (g4 ++ Char.ofNat 45 :: g5))),
      (hexRun_some_iff _ _ _).mpr ⟨g1, by simpa using hs, hl1, ha1⟩,
      g2 ++ Char.ofNat 45 :: (g3 ++ Char.ofNat 45 :: (g4 ++ Char.ofNat 45 :: g5)),
      (dashRun_some_iff _ _).mpr rfl,
      Char.ofNat 45 :: (g3 ++ Char.ofNat 45 :: (g4 ++ Char.ofNat 45 :: g5)),
      (hexRun_some_iff _ _ _).mpr ⟨g2, rfl, hl2, ha2⟩,
      g3 ++ Char.ofNat 45 :: (g4 ++ Char.ofNat 45 :: g5),
      (dashRun_some_iff _ _).mpr rfl,
      Char.ofNat 45 :: (g4 ++ Char.ofNat 45 :: g5),
      (hexRun_some_iff _ _ _).mpr ⟨g3, rfl, hl3, ha3⟩,
      g4 ++ Char.ofNat 45 :: g5,
      (dashRun_some_iff _ _).mpr rfl,
      Char.ofNat 45 :: g5,
      (hexRun_some_iff _ _ _).mpr ⟨g4, rfl, hl4, ha4⟩,
      g5,
      (dashRun_some_iff _ _).mpr rfl,
      [],
      (hexRun_some_iff _ _ _).mpr ⟨g5, by simp, hl5, ha5⟩,
      rfl⟩

/-- The dynamic `SET` list never touches the key columns `id`, `agent_id`
    and `instructor_id`. -/
theorem AgentA.applyFields_keys (r : AgentA.AgentRow) (fs : List (String × JSValue)) :
    (AgentA.applyFields r fs).id = r.id ∧
    (AgentA.applyFields r fs).agent_id = r.agent_id ∧
    (AgentA.applyFields r fs).instructor_id = r.instructor_id := by
  induction fs generalizing r with
  | nil => exact ⟨rfl, rfl, rfl⟩
  | cons kv fs ih =>
      have hset : (AgentA.setCol r kv.1 kv.2).id = r.id ∧
          (AgentA.setCol r kv.1 kv.2).agent_id = r.agent_id ∧
          (AgentA.setCol r kv.1 kv.2).instructor_id = r.instructor_id := by
        unfold AgentA.setCol
        split_ifs <;> exact ⟨rfl, rfl, rfl⟩
      have hstep : AgentA.applyFields r (kv :: fs)
          = AgentA.applyFields (AgentA.setCol r kv.1 kv.2) fs := rfl
      rw [hstep]
      obtain ⟨e1, e2, e3⟩ := ih (AgentA.setCol r kv.1 kv.2)
      exact ⟨e1.trans hset.1, e2.trans hset.2.1, e3.trans hset.2.2⟩

/-- C5: the instructor variant's `getAgentById` and `updateAgent` choose
    their lookup purely by testing the literal id string against the
    canonical UUID pattern (8-4-4-4-12 hexadecimal groups,
    case-insensitive): the code's regex test recognises exactly that
    pattern, and every row either operation returns is keyed by the external
    `agent_id` column when the id matches the pattern, by the cast surrogate
    integer `id` column when it does not, and by the given owner in both
    cases. -/
theorem agentA_uuid_dispatch
    (db : List AgentA.AgentRow) (users : List AgentA.UserRow)
    (key : String) (owner : Int) (updates : List (String × JSValue)) :
    (isUUID key = true ↔ uuidShape key) ∧
    (∀ (r : AgentA.AgentRow) (w : Option AgentA.UserRow),
      AgentA.getAgentById db users key owner = .ok (r, w) →
      (if isUUID key then r.agent_id = key else parsePgInt key = some r.id) ∧
      r.instructor_id = owner) ∧
    (∀ r : AgentA.AgentRow,
      (AgentA.updateAgent db key owner updates).1 = .ok r →
      (if isUUID key then r.agent_id = key else parsePgInt key = some r.id) ∧
      r.instructor_id = owner) := by
  refine ⟨isUUID_iff_uuidShape key, ?_, ?_⟩
  · intro r w hr
    unfold AgentA.getAgentById at hr
    split at hr
    next h =>
      split at hr
      next hf => simp at hr
      next r0 hf =>
        have hpred := List.find?_some
          (p := fun (s : AgentA.AgentRow) => s.agent_id == key && s.instructor_id == owner) hf
        simp only [Except.ok.injEq, Prod.mk.injEq] at hr
        obtain ⟨hrr, -⟩ := hr
        subst hrr
        simp only [Bool.and_eq_true, beq_iff_eq] at hpred
        simp [h, hpred.1, hpred.2]
    next h =>
      simp only [Bool.not_eq_true] at h
      split at hr
      next hn => simp at hr
      next n hn =>
        split at hr
        next hf => simp at hr
        next r0 hf =>
          have hpred := List.find?_some
            (p := fun (s : AgentA.AgentRow) => s.id == n && s.instructor_id == owner) hf
          simp only [Except.ok.injEq, Prod.mk.injEq] at hr
          obtain ⟨hrr, -⟩ := hr
          subst hrr
          simp only [Bool.and_eq_true, beq_iff_eq] at hpred
          simp [h, hn, hpred.1, hpred.2]
  · intro r hr
    unfold AgentA.updateAgent at hr
    split at hr
    next h =>
      unfold AgentA.updateSelected at hr
      split at hr
      next hf => simp at hr
      next r0 hf =>
        have hpred := List.find?_some
          (p := fun (s : AgentA.AgentRow) => s.agent_id == key && s.instructor_id == owner) hf
        simp only [] at hr
        split at hr
        next hfe => simp at hr
        next hfe =>
          simp only [Except.ok.injEq] at hr
          subst hr
          simp only [Bool.and_eq_true, beq_iff_eq] at hpred
          obtain ⟨-, e2, e3⟩ := AgentA.applyFields_keys r0
            (updates.filter fun kv => AgentA.allowedFields.contains kv.1)
          refine ⟨?_, e3.trans hpred.2⟩
          simp only [h, if_true]
          exact e2.trans hpred.1
    next h =>
      simp only [Bool.not_eq_true] at h
      split at hr
      next hn => simp at hr
      next n hn =>
        unfold AgentA.updateSelected at hr
        split at hr
        next hf => simp at hr
        next r0 hf =>
          have hpred := List.find?_some
            (p := fun (s : AgentA.AgentRow) => s.id == n && s.instructor_id == owner) hf
          simp only [] at hr
          split at hr
          next hfe => simp at hr
          next hfe =>
            simp only [Except.ok.injEq] at hr
            subst hr
            simp only [Bool.and_eq_true, beq_iff_eq] at hpred
            obtain ⟨e1, -, e3⟩ := AgentA.applyFields_keys r0
              (updates.filter fun kv => AgentA.allowedFields.contains kv.1)
            refine ⟨?_, e3.trans hpred.2⟩
            simp only [h, Bool.false_eq_true, if_false]
            rw [hn, e1, hpred.1]

/-- Witness for `agentA_uuid_dispatch`: fetching the fixture row by its UUID
    returns a row keyed by the external id column and the right owner. -/
theorem agentA_uuid_dispatch_witness :
    (if isUUID "123e4567-e89b-12d3-a456-426614174000"
     then Fixture.row.agent_id = "123e4567-e89b-12d3-a456-426614174000"
     else parsePgInt "123e4567-e89b-12d3-a456-426614174000" = some Fixture.row.id) ∧
    Fixture.row.instructor_id = 7 :=
  (agentA_uuid_dispatch Fixture.db [] "123e4567-e89b-12d3-a456-426614174000" 7 []).2.1
    Fixture.row none rfl
